import Mathlib

/-!
# Verification of the SLA report bot (`src/bot.py`)

Shallow embedding of the core logic of `handle_excel` and `calc_sla_report`:
the per-row OTT override, the numeric coercion of the violation flag, the
eligibility and tier masks, and the per-bucket SLA report computation.

Conventions of the embedding:
* A spreadsheet cell relevant to the violation flags is modelled by `Cell`:
  `num q` is a cell whose value parses to the rational `q` (pandas
  `to_numeric` succeeds), `blank` is an empty/NaN cell, and `nonNum` is a
  value that does not parse as a number (`to_numeric(..., errors=coerce)`
  yields NaN).
* Python's float arithmetic is modelled over `ℚ`: `round(x, 1)` becomes
  round-half-to-even at one decimal on rationals, `math.ceil(total * 0.87)`
  becomes `Int.ceil (total * 87 / 100)`.
* The report triple `(sla_pct, buffer, status)` of `calc_sla_report` is
  modelled by `SlaReport`; the placeholder string value `"—"` returned for an
  empty bucket is modelled by `none` in each field, and the status string is
  modelled by the Boolean it displays (`✅` when `buffer >= 0`, `❌`
  otherwise).
-/

/-- A spreadsheet cell value as seen by the violation-flag logic. -/
inductive Cell where
  | blank : Cell
  | num (q : ℚ) : Cell
  | nonNum : Cell
deriving DecidableEq

/-- One row of the input table, restricted to the columns the core logic
reads: `"source_NTTM_DB"[3ЛТП_Признак]`, `Уровень` (tier), `Исключить ЦЭ`,
`Исключить по услуге`, `Тип услуги` (service type), `Нарушение SLA`
(sla_violation), `Нарушение SLA без ожидания клиента`
(sla_violation_no_wait). -/
structure Row where
  flag3ltp : Cell
  tier : String
  exclCE : String
  exclService : String
  serviceType : String
  slaViolation : Cell
  slaViolationNoWait : Cell
deriving DecidableEq

/-- The OTT override as written in the `"dwh"` branch of `handle_excel`
(lines 55-58): rows with `Тип услуги == "ОТТ"` get their `Нарушение SLA`
replaced by `1` if `Нарушение SLA без ожидания клиента == 1` else `0`. -/
def ottOverrideDwh (r : Row) : Row :=
  if r.serviceType = "ОТТ" then
    { r with slaViolation :=
        Cell.num (if r.slaViolationNoWait = Cell.num 1 then 1 else 0) }
  else r

/-- The OTT override as written in the `"sla"` branch of `handle_excel`
(lines 61-64). -/
def ottOverrideSla (r : Row) : Row :=
  if r.serviceType = "ОТТ" then
    { r with slaViolation :=
        Cell.num (if r.slaViolationNoWait = Cell.num 1 then 1 else 0) }
  else r

/-- `pd.to_numeric(col, errors=coerce).fillna(1)` applied to a single cell
(lines 83, 96, 122, 131): a numeric value is kept, a blank or unparseable
value becomes `1`. -/
def coerceViolation (c : Cell) : ℚ :=
  match c with
  | Cell.num q => q
  | Cell.blank => 1
  | Cell.nonNum => 1

/-- The Row Normalizer: the effective `Нарушение SLA` value of a row after
the OTT override (branch `"dwh"`; the `"sla"` branch is identical, see
`ottOverride_branches_eq`) followed by the numeric coercion. -/
def normalizeRow (r : Row) : ℚ :=
  coerceViolation (ottOverrideDwh r).slaViolation

/-- The eligibility filter `base_mask` (lines 70-74). -/
def base_mask (r : Row) : Bool :=
  decide (r.flag3ltp = Cell.num 1) &&
  decide (r.exclCE = "Без признака ЦЭ") &&
  decide (r.exclService = "Расчетные услуги")

/-- The Platinum bucket mask `platina_mask` (line 77). -/
def platina_mask (r : Row) : Bool :=
  base_mask r && decide (r.tier = "Платиновый")

/-- The tier literals merged into the "Other" bucket (line 90). -/
def other_levels : List String := ["Бронзовый", "Золотой", "Серебряный"]

/-- The "Other" bucket mask `other_mask` (line 91). -/
def other_mask (r : Row) : Bool :=
  base_mask r && decide (r.tier ∈ other_levels)

/-- Round-half-to-even to an integer, the rounding used by Python's builtin
`round` (modelled over `ℚ`). -/
def rhe (q : ℚ) : ℤ :=
  if q - ⌊q⌋ < 1/2 then ⌊q⌋
  else if 1/2 < q - ⌊q⌋ then ⌊q⌋ + 1
  else if Even ⌊q⌋ then ⌊q⌋ else ⌊q⌋ + 1

/-- Python's `round(q, 1)`: round-half-to-even at one decimal place. -/
def round1 (q : ℚ) : ℚ := (rhe (q * 10) : ℚ) / 10

/-- The result triple of `calc_sla_report`: `pct` models `sla_pct`, `buffer`
models `buffer = on_time - min_on_time`, `compliant` models the status string
(`true` for `✅ В норме`, `false` for `❌ Ниже норматива`). `none` in every
field models the placeholder `"—"` returned when `total == 0`. -/
structure SlaReport where
  pct : Option ℚ
  buffer : Option ℤ
  compliant : Option Bool
deriving DecidableEq

/-- `calc_sla_report` (lines 103-118): for an empty bucket all three results
are the placeholder; otherwise the SLA percentage is `round(on_time / total
* 100, 1)`, `min_on_time = ceil(total * 0.87)` and the buffer
`on_time - min_on_time` decides the status. -/
def calc_sla_report (total on_time : ℕ) : SlaReport :=
  if total = 0 then ⟨none, none, none⟩
  else
    let sla_pct : ℚ := round1 ((on_time : ℚ) / (total : ℚ) * 100)
    let min_on_time : ℤ := ⌈(total : ℚ) * 87 / 100⌉
    let buffer : ℤ := (on_time : ℤ) - min_on_time
    ⟨some sla_pct, some buffer, some (decide (0 ≤ buffer))⟩

/-- The outcome of `handle_excel` after the column check (lines 52-153):
either the informational message `ℹ️ Имя файла должно содержать 'dwh' или
'sla'.` or a report message carrying the Platinum and Other bucket results. -/
inductive Outcome where
  | infoBadName : Outcome
  | reportMsg (platina other : SlaReport) : Outcome
deriving DecidableEq

/-- Python's `str.lower()`, applied character by character. -/
def pyLower (s : String) : String := ⟨s.data.map Char.toLower⟩

/-- Naive substring search over character lists. -/
def hasSubAux (pat : List Char) : List Char → Bool
  | [] => pat.isEmpty
  | c :: rest => pat.isPrefixOf (c :: rest) || hasSubAux pat rest

/-- `pat in s` on Python strings. -/
def strHasSub (s pat : String) : Bool := hasSubAux pat.toList s.toList

/-- Per-bucket counting and report assembly of `handle_excel` (lines 76-151)
on rows whose OTT override has already been applied: filter each tier
bucket, count rows, coerce the violation flag and count on-time rows, then
apply `calc_sla_report` to each bucket. -/
def mkReport (rows : List Row) : Outcome :=
  let dfPlatina := rows.filter platina_mask
  let dfOther := rows.filter other_mask
  let onTimePlatina :=
    (dfPlatina.filter (fun r => decide (coerceViolation r.slaViolation = 0))).length
  let onTimeOther :=
    (dfOther.filter (fun r => decide (coerceViolation r.slaViolation = 0))).length
  Outcome.reportMsg
    (calc_sla_report dfPlatina.length onTimePlatina)
    (calc_sla_report dfOther.length onTimeOther)

/-- `handle_excel` from the file-name dispatch on (lines 52-153): the `"dwh"`
branch and the `"sla"` branch each apply their OTT override to every row and
fall through to the shared filtering and report assembly; any other file
name produces the informational message and no report. -/
def handle_excel (fileName : String) (rows : List Row) : Outcome :=
  if strHasSub (pyLower fileName) "dwh" then
    mkReport (rows.map ottOverrideDwh)
  else if strHasSub (pyLower fileName) "sla" then
    mkReport (rows.map ottOverrideSla)
  else
    Outcome.infoBadName

/-! ## Helper lemmas -/

/-- The rounded value never drops below the floor of its argument. -/
theorem rhe_ge_floor (q : ℚ) : ⌊q⌋ ≤ rhe q := by
  unfold rhe; split_ifs <;> omega

/-- The rounded value never exceeds the floor of its argument plus one. -/
theorem rhe_le_floor_add_one (q : ℚ) : rhe q ≤ ⌊q⌋ + 1 := by
  unfold rhe; split_ifs <;> omega

/-- Round-half-to-even is monotone. -/
theorem rhe_mono {x y : ℚ} (h : x ≤ y) : rhe x ≤ rhe y := by
  have hf : ⌊x⌋ ≤ ⌊y⌋ := Int.floor_le_floor h
  rcases lt_or_eq_of_le hf with hlt | heq
  · have h1 := rhe_le_floor_add_one x
    have h2 := rhe_ge_floor y
    omega
  · unfold rhe
    rw [← heq]
    split_ifs <;> first | omega | linarith

/-- Rounding at one decimal place is monotone. -/
theorem round1_mono {x y : ℚ} (h : x ≤ y) : round1 x ≤ round1 y := by
  unfold round1
  have h10 := rhe_mono (mul_le_mul_of_nonneg_right h (by norm_num : (0:ℚ) ≤ 10))
  have hc : ((rhe (x * 10) : ℤ) : ℚ) ≤ ((rhe (y * 10) : ℤ) : ℚ) := by
    exact_mod_cast h10
  linarith

/-- The two OTT-override branches of `handle_excel` are syntactically the
same transformation. -/
theorem ottOverride_branches_eq : ottOverrideDwh = ottOverrideSla := rfl

/-- The OTT override leaves every column other than `Нарушение SLA`
unchanged, so eligibility is unaffected. -/
theorem base_mask_ottOverrideDwh (r : Row) :
    base_mask (ottOverrideDwh r) = base_mask r := by
  unfold ottOverrideDwh base_mask
  split <;> rfl

/-- The OTT override leaves the tier column unchanged. -/
theorem tier_ottOverrideDwh (r : Row) :
    (ottOverrideDwh r).tier = r.tier := by
  unfold ottOverrideDwh
  split <;> rfl

/-! ## Claims -/

/-- Claim C5: for every record with `service_type` equal to the OTT sentinel
`"ОТТ"`, normalization replaces `sla_violation` with 1 if
`sla_violation_no_wait == 1` and with 0 otherwise, regardless of the
original `sla_violation` value, and the replacement is what the generic
blank-coercion step then sees; non-OTT records keep their own
`sla_violation` field. -/
theorem claim_C5_ott_override (r : Row) :
    (r.serviceType = "ОТТ" →
      (ottOverrideDwh r).slaViolation =
        Cell.num (if r.slaViolationNoWait = Cell.num 1 then 1 else 0) ∧
      (ottOverrideSla r).slaViolation =
        Cell.num (if r.slaViolationNoWait = Cell.num 1 then 1 else 0) ∧
      normalizeRow r = (if r.slaViolationNoWait = Cell.num 1 then 1 else 0)) ∧
    (r.serviceType ≠ "ОТТ" →
      (ottOverrideDwh r).slaViolation = r.slaViolation ∧
      (ottOverrideSla r).slaViolation = r.slaViolation ∧
      normalizeRow r = coerceViolation r.slaViolation) := by
  constructor
  · intro hsvc
    simp [ottOverrideDwh, ottOverrideSla, normalizeRow, hsvc]
    split_ifs <;> simp [coerceViolation]
  · intro hsvc
    simp [ottOverrideDwh, ottOverrideSla, normalizeRow, hsvc]

/-- Witness for C5: a concrete OTT record with raw violation 0 and
no-wait violation 1 normalizes to 1; a concrete non-OTT record keeps its
field. -/
theorem claim_C5_witness :
    normalizeRow ⟨Cell.num 1, "Платиновый", "Без признака ЦЭ",
      "Расчетные услуги", "ОТТ", Cell.num 0, Cell.num 1⟩ = 1 ∧
    (ottOverrideDwh ⟨Cell.num 1, "Платиновый", "Без признака ЦЭ",
      "Расчетные услуги", "Интернет", Cell.num 0, Cell.num 1⟩).slaViolation =
      Cell.num 0 := by
  constructor
  · have h := (claim_C5_ott_override ⟨Cell.num 1, "Платиновый",
      "Без признака ЦЭ", "Расчетные услуги", "ОТТ", Cell.num 0,
      Cell.num 1⟩).1 rfl
    simpa using h.2.2
  · have h := (claim_C5_ott_override ⟨Cell.num 1, "Платиновый",
      "Без признака ЦЭ", "Расчетные услуги", "Интернет", Cell.num 0,
      Cell.num 1⟩).2 (by simp)
    simpa using h.1

/-- Claim C6 fails as stated: the spec's own Scenario D record — an OTT row
with blank `sla_violation` and `sla_violation_no_wait = 0` — has an absent
`sla_violation`, yet normalizes to 0 (counted on-time), not to 1. -/
theorem claim_C6_counterexample :
    (⟨Cell.num 1, "Платиновый", "Без признака ЦЭ", "Расчетные услуги",
      "ОТТ", Cell.blank, Cell.num 0⟩ : Row).slaViolation = Cell.blank ∧
    normalizeRow ⟨Cell.num 1, "Платиновый", "Без признака ЦЭ",
      "Расчетные услуги", "ОТТ", Cell.blank, Cell.num 0⟩ = 0 ∧
    (0 : ℚ) ≠ 1 := by
  refine ⟨rfl, ?_, by norm_num⟩
  simp [normalizeRow, ottOverrideDwh, coerceViolation]

/-- Claim C6 amended: for every non-OTT record whose `sla_violation` is
absent or does not parse as a number, normalization treats it as 1 (a
violation); OTT records instead take the override value computed from
`sla_violation_no_wait`, regardless of the raw `sla_violation` field. -/
theorem claim_C6_amended (r : Row) (hsvc : r.serviceType ≠ "ОТТ")
    (hraw : r.slaViolation = Cell.blank ∨ r.slaViolation = Cell.nonNum) :
    normalizeRow r = 1 := by
  rcases hraw with h | h <;>
    simp [normalizeRow, ottOverrideDwh, hsvc, h, coerceViolation]

/-- Witness for the amended C6: a concrete non-OTT record with a blank
violation flag normalizes to 1. -/
theorem claim_C6_amended_witness :
    normalizeRow ⟨Cell.num 1, "Золотой", "Без признака ЦЭ",
      "Расчетные услуги", "Интернет", Cell.blank, Cell.num 0⟩ = 1 :=
  claim_C6_amended ⟨Cell.num 1, "Золотой", "Без признака ЦЭ",
    "Расчетные услуги", "Интернет", Cell.blank, Cell.num 0⟩
    (by simp) (Or.inl rfl)

/-- Claim C4 fails as stated: a non-OTT record whose raw `sla_violation`
parses to 2 keeps the value 2 after normalization — the 0/1 invariant does
not hold. -/
theorem claim_C4_counterexample :
    normalizeRow ⟨Cell.num 1, "Платиновый", "Без признака ЦЭ",
      "Расчетные услуги", "Интернет", Cell.num 2, Cell.num 0⟩ = 2 ∧
    (2 : ℚ) ≠ 0 ∧ (2 : ℚ) ≠ 1 := by
  refine ⟨?_, by norm_num, by norm_num⟩
  simp [normalizeRow, ottOverrideDwh, coerceViolation]

/-- Claim C4 amended: after normalization `sla_violation` is always a
numeric value, and it is 0 or 1 whenever the row is OTT or the raw field is
blank, unparseable, or already 0 or 1; but a parseable numeric value outside
the 0/1 domain on a non-OTT row is kept unchanged (2 stays 2) rather than
rejected. -/
theorem claim_C4_amended (r : Row) :
    (r.serviceType = "ОТТ" → normalizeRow r = 0 ∨ normalizeRow r = 1) ∧
    ((r.slaViolation = Cell.blank ∨ r.slaViolation = Cell.nonNum ∨
        r.slaViolation = Cell.num 0 ∨ r.slaViolation = Cell.num 1) →
      normalizeRow r = 0 ∨ normalizeRow r = 1) ∧
    (∀ q : ℚ, r.serviceType ≠ "ОТТ" → r.slaViolation = Cell.num q →
      normalizeRow r = q) := by
  refine ⟨?_, ?_, ?_⟩
  · intro hsvc
    simp only [normalizeRow, ottOverrideDwh, if_pos hsvc]
    split_ifs <;> simp [coerceViolation]
  · intro hraw
    by_cases hsvc : r.serviceType = "ОТТ"
    · simp only [normalizeRow, ottOverrideDwh, if_pos hsvc]
      split_ifs <;> simp [coerceViolation]
    · rcases hraw with h | h | h | h <;>
        simp [normalizeRow, ottOverrideDwh, hsvc, h, coerceViolation]
  · intro q hsvc h
    simp [normalizeRow, ottOverrideDwh, hsvc, h, coerceViolation]

/-- Witness for the amended C4: applied at a concrete OTT row, at a
concrete blank row, and at a concrete non-OTT row carrying the value 2. -/
theorem claim_C4_amended_witness :
    (normalizeRow ⟨Cell.num 1, "Платиновый", "Без признака ЦЭ",
        "Расчетные услуги", "ОТТ", Cell.num 5, Cell.num 1⟩ = 0 ∨
      normalizeRow ⟨Cell.num 1, "Платиновый", "Без признака ЦЭ",
        "Расчетные услуги", "ОТТ", Cell.num 5, Cell.num 1⟩ = 1) ∧
    normalizeRow ⟨Cell.num 1, "Бронзовый", "Без признака ЦЭ",
      "Расчетные услуги", "Интернет", Cell.num 2, Cell.num 0⟩ = 2 := by
  constructor
  · exact (claim_C4_amended ⟨Cell.num 1, "Платиновый", "Без признака ЦЭ",
      "Расчетные услуги", "ОТТ", Cell.num 5, Cell.num 1⟩).1 rfl
  · exact (claim_C4_amended ⟨Cell.num 1, "Бронзовый", "Без признака ЦЭ",
      "Расчетные услуги", "Интернет", Cell.num 2, Cell.num 0⟩).2.2 2
      (by simp) rfl

/-- Claim C2 fails as stated: for an empty bucket `calc_sla_report` returns
the placeholder `"—"` in every field — the compliance percentage is not
100.0 and the status is not "compliant". -/
theorem claim_C2_counterexample :
    calc_sla_report 0 0 = ⟨none, none, none⟩ ∧
    (calc_sla_report 0 0).pct ≠ some 100 ∧
    (calc_sla_report 0 0).compliant ≠ some true := by
  refine ⟨?_, ?_, ?_⟩ <;> simp [calc_sla_report]

/-- Claim C2 amended: for every group bucket with `total == 0` the report
carries the placeholder `"—"` for the percentage, the buffer and the status
(no percentage, no status, and no needed-tickets count are reported). -/
theorem claim_C2_amended (total on_time : ℕ) (h : total = 0) :
    calc_sla_report total on_time = ⟨none, none, none⟩ := by
  simp [calc_sla_report, h]

/-- Witness for the amended C2: the empty bucket with 7 claimed on-time
rows still reports only placeholders. -/
theorem claim_C2_amended_witness :
    calc_sla_report 0 7 = ⟨none, none, none⟩ :=
  claim_C2_amended 0 7 rfl

/-- Claim C1 fails on the code: at total=100, on_time=80 the code reports
buffer -7, i.e. it announces 7 missing tickets (`ceil(0.87*100) - 80`),
while the stated need is 54: 54 is the least k with
(80+k)/(100+k) >= 87/100 (54 reaches the target, 53 does not), and the
code's 7 does not reach it. The spec itself flags the subtract-only
shortfall as a likely pre-existing bug, so the claim is the intent and the
code the slip. -/
theorem claim_C1_code_bug :
    calc_sla_report 100 80 = ⟨some 80, some (-7), some false⟩ ∧
    (87 : ℚ) / 100 ≤ (80 + 54) / (100 + 54) ∧
    ¬((87 : ℚ) / 100 ≤ (80 + 53) / (100 + 53)) ∧
    ¬((87 : ℚ) / 100 ≤ (80 + 7) / (100 + 7)) ∧
    (7 : ℤ) ≠ 54 := by
  refine ⟨?_, by norm_num, by norm_num, by norm_num, by norm_num⟩
  norm_num [calc_sla_report, round1, rhe]

/-- Claim C3 fails as stated: a valid-named file whose dataset has no
eligible rows still makes `handle_excel` emit the report message (with
placeholder buckets); no informational message is sent for emptiness. -/
theorem claim_C3_counterexample :
    handle_excel "dwh_report.xlsx" [] =
      Outcome.reportMsg ⟨none, none, none⟩ ⟨none, none, none⟩ ∧
    handle_excel "dwh_report.xlsx" [] ≠ Outcome.infoBadName := by
  constructor <;> decide

/-- Claim C3 amended: for every dataset whose eligibility filter leaves
zero rows, and any file name that passes the dwh/sla check, the program
still emits a report — both buckets all placeholders — rather than an
informational message. -/
theorem claim_C3_amended (fn : String) (rows : List Row)
    (hname : strHasSub (pyLower fn) "dwh" = true ∨
      strHasSub (pyLower fn) "sla" = true)
    (hempty : rows.filter base_mask = []) :
    handle_excel fn rows =
      Outcome.reportMsg ⟨none, none, none⟩ ⟨none, none, none⟩ := by
  have hb : ∀ r ∈ rows, base_mask r = false := by
    intro r hr
    simpa using List.filter_eq_nil_iff.mp hempty r hr
  have hmk : ∀ g : Row → Row, (∀ r, base_mask (g r) = base_mask r) →
      mkReport (rows.map g) =
        Outcome.reportMsg ⟨none, none, none⟩ ⟨none, none, none⟩ := by
    intro g hg
    have hp : (rows.map g).filter platina_mask = [] := by
      rw [List.filter_eq_nil_iff]
      intro a ha
      rw [List.mem_map] at ha
      obtain ⟨r, hr, rfl⟩ := ha
      simp [platina_mask, hg r, hb r hr]
    have ho : (rows.map g).filter other_mask = [] := by
      rw [List.filter_eq_nil_iff]
      intro a ha
      rw [List.mem_map] at ha
      obtain ⟨r, hr, rfl⟩ := ha
      simp [other_mask, hg r, hb r hr]
    simp [mkReport, hp, ho, calc_sla_report]
  unfold handle_excel
  rcases hname with h | h
  · rw [if_pos h]
    exact hmk ottOverrideDwh base_mask_ottOverrideDwh
  · by_cases hd : strHasSub (pyLower fn) "dwh" = true
    · rw [if_pos hd]
      exact hmk ottOverrideDwh base_mask_ottOverrideDwh
    · rw [if_neg hd, if_pos h]
      refine hmk ottOverrideSla fun r => ?_
      rw [← ottOverride_branches_eq]
      exact base_mask_ottOverrideDwh r

/-- Witness for the amended C3: an empty dataset under an "sla" file name
yields the placeholder report. -/
theorem claim_C3_amended_witness :
    handle_excel "sla_week.xlsx" [] =
      Outcome.reportMsg ⟨none, none, none⟩ ⟨none, none, none⟩ :=
  claim_C3_amended "sla_week.xlsx" [] (Or.inr (by decide)) rfl

/-- Claim C7: for every group bucket with total >= 1 and on-time count at
most total, the reported compliance percentage is round(on_time / total *
100) at one decimal place. -/
theorem claim_C7_compliance_pct (total on_time : ℕ) (h1 : 1 ≤ total)
    (h2 : on_time ≤ total) :
    (calc_sla_report total on_time).pct =
      some (round1 ((on_time : ℚ) / (total : ℚ) * 100)) := by
  have h0 : ¬ total = 0 := by omega
  simp [calc_sla_report, h0]

/-- Witness for C7: the bucket 3 of 4 reports round(75.0). -/
theorem claim_C7_witness :
    (calc_sla_report 4 3).pct = some (round1 ((3 : ℚ) / (4 : ℚ) * 100)) :=
  claim_C7_compliance_pct 4 3 (by norm_num) (by norm_num)

/-- Claim C8: for a fixed total >= 1, increasing the on-time count never
decreases the reported compliance percentage and never turns a compliant
status non-compliant. -/
theorem claim_C8_monotone (total o1 o2 : ℕ) (h1 : 1 ≤ total)
    (hle : o1 ≤ o2) (h2 : o2 ≤ total) :
    (calc_sla_report total o1).pct.getD 0 ≤
      (calc_sla_report total o2).pct.getD 0 ∧
    ((calc_sla_report total o1).compliant = some true →
      (calc_sla_report total o2).compliant = some true) := by
  have h0 : ¬ total = 0 := by omega
  have hT : (0 : ℚ) < total := by
    exact_mod_cast Nat.pos_of_ne_zero h0
  constructor
  · simp only [calc_sla_report, if_neg h0, Option.getD_some]
    apply round1_mono
    have hc : (o1 : ℚ) ≤ (o2 : ℚ) := by exact_mod_cast hle
    gcongr
  · simp only [calc_sla_report, if_neg h0, Option.some.injEq,
      decide_eq_true_eq]
    omega

/-- Witness for C8: raising the on-time count from 2 to 3 out of 4. -/
theorem claim_C8_witness :
    (calc_sla_report 4 2).pct.getD 0 ≤ (calc_sla_report 4 3).pct.getD 0 ∧
    ((calc_sla_report 4 2).compliant = some true →
      (calc_sla_report 4 3).compliant = some true) :=
  claim_C8_monotone 4 2 3 (by norm_num) (by norm_num) (by norm_num)

/-- Claim C9: every eligible record whose tier is Platinum is counted in
the Platinum bucket and not in the Other bucket; one with tier Gold,
Silver or Bronze is counted in the Other bucket and not in the Platinum
bucket; and one with any other tier value is counted in neither bucket. -/
theorem claim_C9_partition (rows : List Row) (r : Row) (hmem : r ∈ rows)
    (helig : base_mask r = true) :
    (r.tier = "Платиновый" →
      r ∈ rows.filter platina_mask ∧ r ∉ rows.filter other_mask) ∧
    (r.tier ∈ other_levels →
      r ∈ rows.filter other_mask ∧ r ∉ rows.filter platina_mask) ∧
    (r.tier ≠ "Платиновый" → r.tier ∉ other_levels →
      r ∉ rows.filter platina_mask ∧ r ∉ rows.filter other_mask) := by
  have hplat : r ∈ rows.filter platina_mask ↔ platina_mask r = true := by
    rw [List.mem_filter]
    exact ⟨fun h => h.2, fun h => ⟨hmem, h⟩⟩
  have hoth : r ∈ rows.filter other_mask ↔ other_mask r = true := by
    rw [List.mem_filter]
    exact ⟨fun h => h.2, fun h => ⟨hmem, h⟩⟩
  have hp : platina_mask r = decide (r.tier = "Платиновый") := by
    simp [platina_mask, helig]
  have ho : other_mask r = decide (r.tier ∈ other_levels) := by
    simp [other_mask, helig]
  refine ⟨fun ht => ⟨?_, ?_⟩, fun ht => ⟨?_, ?_⟩, fun ht1 ht2 => ⟨?_, ?_⟩⟩
  · exact hplat.mpr (by rw [hp]; exact decide_eq_true ht)
  · rw [hoth, ho, decide_eq_true_eq, ht]
    decide
  · exact hoth.mpr (by rw [ho]; exact decide_eq_true ht)
  · rw [hplat, hp, decide_eq_true_eq]
    intro heq
    rw [heq] at ht
    exact (by decide : ¬(("Платиновый" : String) ∈ other_levels)) ht
  · rw [hplat, hp, decide_eq_true_eq]
    exact ht1
  · rw [hoth, ho, decide_eq_true_eq]
    exact ht2

/-- Witness for C9: a concrete eligible Platinum row in a one-row dataset
lands in the Platinum bucket and not in the Other bucket. -/
theorem claim_C9_witness :
    ((⟨Cell.num 1, "Платиновый", "Без признака ЦЭ", "Расчетные услуги",
        "Интернет", Cell.num 0, Cell.num 0⟩ : Row) ∈
      List.filter platina_mask
        [⟨Cell.num 1, "Платиновый", "Без признака ЦЭ", "Расчетные услуги",
          "Интернет", Cell.num 0, Cell.num 0⟩]) ∧
    ((⟨Cell.num 1, "Платиновый", "Без признака ЦЭ", "Расчетные услуги",
        "Интернет", Cell.num 0, Cell.num 0⟩ : Row) ∉
      List.filter other_mask
        [⟨Cell.num 1, "Платиновый", "Без признака ЦЭ", "Расчетные услуги",
          "Интернет", Cell.num 0, Cell.num 0⟩]) :=
  (claim_C9_partition _ _ (List.mem_singleton.mpr rfl)
    (by simp [base_mask])).1 rfl

/-- Claim C10: the processing branch chosen for a file name containing
"dwh" and the branch chosen for one containing "sla" perform the same
computation, so the two variants give identical outcomes on the same
dataset. -/
theorem claim_C10_variant_equiv (fn1 fn2 : String) (rows : List Row)
    (h1 : strHasSub (pyLower fn1) "dwh" = true)
    (h2 : strHasSub (pyLower fn2) "sla" = true) :
    handle_excel fn1 rows = handle_excel fn2 rows := by
  unfold handle_excel
  rw [if_pos h1]
  by_cases hd : strHasSub (pyLower fn2) "dwh" = true
  · rw [if_pos hd]
  · rw [if_neg hd, if_pos h2, ottOverride_branches_eq]

/-- Witness for C10: the names "dwh" and "sla" on the empty dataset. -/
theorem claim_C10_witness :
    handle_excel "dwh" [] = handle_excel "sla" [] :=
  claim_C10_variant_equiv "dwh" "sla" [] (by decide) (by decide)
